import Mathlib

/-!
Verification of the sliding-window Daily Light Integral accumulator
(`PlantDailyLightIntegral` in `custom_components/plant/plant_meters.py`).

The Python class keeps a list `_data_points` of `(timestamp, increment)`
pairs, a published value `_attr_native_value`, and three entry points:
`async_added_to_hass` (restore on cold start), `_source_changed`
(event-driven increment extraction) and `_update_sliding_window`
(periodic eviction), with `_update_value` recomputing and publishing.

The shallow embedding below models:
* timestamps as integers (seconds), so the 24-hour cutoff is 86400;
* Python floats as rationals;
* `float(str)` as `parseFloat`, a model of Python float parsing on plain
  decimal strings (optional sign, digits, optional single decimal point;
  scientific notation, inf/nan and surrounding whitespace are outside
  the model — every string the claims mention is covered);
* Python `round(x, 2)` as `roundTo2`, banker's rounding (round half to
  even) at two decimal places on exact rationals;
* each mutating entry point as a pure function `DLIState → DLIState × List Rat`
  where the second component is the list of values published to the
  state sink (`async_write_ha_state`) during the call.
-/

namespace PlantDLI

/-- Sentinel literal `STATE_UNKNOWN` from homeassistant.const. -/
def STATE_UNKNOWN : String := "unknown"

/-- Sentinel literal `STATE_UNAVAILABLE` from homeassistant.const. -/
def STATE_UNAVAILABLE : String := "unavailable"

/-- Split a character list at the first dot, if any. -/
def splitDot : List Char → List Char × Option (List Char)
  | [] => ([], none)
  | c :: r =>
    if c = '.' then ([], some r)
    else
      let p := splitDot r
      (c :: p.fst, p.snd)

/-- Value of a list of decimal digit characters. -/
def digitsToNat (cs : List Char) : Nat :=
  cs.foldl (fun a c => a * 10 + (c.toNat - ('0').toNat)) 0

/-- Parse an unsigned decimal string: digits with at most one dot,
at least one digit overall. -/
def parseUnsigned (cs : List Char) : Option Rat :=
  let p := splitDot cs
  let ip := p.fst
  let fp := p.snd.getD []
  if ip.all Char.isDigit ∧ fp.all Char.isDigit ∧ (ip ≠ [] ∨ fp ≠ []) then
    some ((digitsToNat ip : Rat) + (digitsToNat fp : Rat) / ((10 : Rat) ^ fp.length))
  else none

/-- Model of Python `float(s)` on decimal strings: optional sign, then an
unsigned decimal number.  Returns `none` where Python raises `ValueError`
(in particular on "unknown", "unavailable" and any non-numeric string). -/
def parseFloat (s : String) : Option Rat :=
  match s.data with
  | [] => none
  | c :: r =>
    if c = '-' then (parseUnsigned r).map (fun x => -x)
    else if c = '+' then parseUnsigned r
    else parseUnsigned (c :: r)

/-- Round a rational to the nearest integer, ties to even — the rounding
mode of Python `round`. -/
def roundHalfEven (q : Rat) : Int :=
  if q - (⌊q⌋ : Rat) < 1 / 2 then ⌊q⌋
  else if 1 / 2 < q - (⌊q⌋ : Rat) then ⌊q⌋ + 1
  else if ⌊q⌋ % 2 = 0 then ⌊q⌋ else ⌊q⌋ + 1

/-- Model of Python `round(x, 2)`. -/
def roundTo2 (q : Rat) : Rat :=
  (roundHalfEven (q * 100) : Rat) / 100

/-- One element of `_data_points`: a `(timestamp, increment)` pair. -/
structure DataPoint where
  ts : Int
  increment : Rat
deriving DecidableEq, Repr

/-- The mutable state of a `PlantDailyLightIntegral` instance:
`_data_points` and `_attr_native_value`. -/
structure DLIState where
  window : List DataPoint
  value : Rat
deriving DecidableEq, Repr

/-- State right after `__init__`: `_data_points = []`, `_attr_native_value = 0`. -/
def initState : DLIState := ⟨[], 0⟩

/-- Sum of the increments of the points in a window. -/
def sumIncrements (w : List DataPoint) : Rat :=
  (w.map fun dp => dp.increment).sum

/-- The value `_update_value` computes from `_data_points`:
0 when empty, else the rounded sum of increments. -/
def computeValue (w : List DataPoint) : Rat :=
  if w.isEmpty then 0 else roundTo2 (sumIncrements w)

/-- Model of `_update_value`: recompute `_attr_native_value` from the window and
publish it via `async_write_ha_state`. -/
def updateValue (s : DLIState) : DLIState × List Rat :=
  (⟨s.window, computeValue s.window⟩, [computeValue s.window])

/-- The `old_value` computation in `_source_changed`: 0 when the old state
object is absent; otherwise, unless the old raw state is a sentinel, the
parsed old raw state, falling back to 0 when parsing fails. -/
def oldValueOf (oldState : Option String) : Rat :=
  match oldState with
  | none => 0
  | some s =>
    if s = STATE_UNKNOWN ∨ s = STATE_UNAVAILABLE then 0
    else (parseFloat s).getD 0

/-- Model of `_source_changed`: on a source event carrying raw new/old states,
parse the new state (any failure, including the sentinels, is the caught
`ValueError` branch: no change), compute the increment against the old
value, and when the increment is positive append a data point stamped
with the current time and recompute/publish. -/
def sourceChanged (newState oldState : Option String) (t : Int) (s : DLIState) :
    DLIState × List Rat :=
  match newState with
  | none => (s, [])
  | some nraw =>
    match parseFloat nraw with
    | none => (s, [])
    | some nv =>
      let inc := nv - oldValueOf oldState
      if 0 < inc then
        updateValue ⟨s.window ++ [⟨t, inc⟩], s.value⟩
      else (s, [])

/-- The eviction cutoff `now - timedelta(hours=24)`, in seconds. -/
def cutoff (now : Int) : Int := now - 86400

/-- Model of `_update_sliding_window`: if the window is empty, return at once
(no filtering, no recompute, no publish); otherwise keep exactly the
points with `dp[0] >= cutoff` and recompute/publish. -/
def updateSlidingWindow (now : Int) (s : DLIState) : DLIState × List Rat :=
  if s.window.isEmpty then (s, [])
  else
    updateValue ⟨s.window.filter (fun dp => cutoff now ≤ dp.ts), s.value⟩

/-- The restore step of `async_added_to_hass`: when a last state exists
and is not a sentinel, set `_attr_native_value` to its parsed value, or
to 0 when parsing raises; otherwise leave the state as `__init__` left it. -/
def restoreState (persisted : Option String) (s : DLIState) : DLIState :=
  match persisted with
  | none => s
  | some p =>
    if p = STATE_UNKNOWN ∨ p = STATE_UNAVAILABLE then s
    else
      match parseFloat p with
      | some v => ⟨s.window, v⟩
      | none => ⟨s.window, 0⟩

/-- Cold start: `__init__` followed by the restore step of
`async_added_to_hass`. -/
def coldStart (persisted : Option String) : DLIState :=
  restoreState persisted initState

/-- Model of `currentValue()`: pure read of the last written value. -/
def currentValue (s : DLIState) : Rat := s.value

/-- The states a `PlantDailyLightIntegral` instance can be in: a cold
start with any persisted raw value, followed by any interleaving of
source events and sweeps. -/
inductive Reachable : DLIState → Prop
  | start (p : Option String) : Reachable (coldStart p)
  | source {s} (n o : Option String) (t : Int) :
      Reachable s → Reachable (sourceChanged n o t s).fst
  | sweep {s} (now : Int) :
      Reachable s → Reachable (updateSlidingWindow now s).fst

/-- The published value agrees with the rounded window sum. -/
def InSync (s : DLIState) : Prop := s.value = computeValue s.window

/-! ### Evaluation lemmas for `parseFloat` on the concrete strings used below -/

theorem parseFloat_unknown : parseFloat STATE_UNKNOWN = none := by
  simp [STATE_UNKNOWN, parseFloat, parseUnsigned, splitDot, digitsToNat]

theorem parseFloat_unavailable : parseFloat STATE_UNAVAILABLE = none := by
  simp [STATE_UNAVAILABLE, parseFloat, parseUnsigned, splitDot, digitsToNat]

theorem parseFloat_not_a_number : parseFloat ("not_a_number") = none := by
  simp [parseFloat, parseUnsigned, splitDot, digitsToNat]

theorem parseFloat_zero : parseFloat ("0") = some 0 := by
  simp [parseFloat, parseUnsigned, splitDot, digitsToNat]

theorem parseFloat_two : parseFloat ("2") = some 2 := by
  simp [parseFloat, parseUnsigned, splitDot, digitsToNat]

theorem parseFloat_five : parseFloat ("5") = some 5 := by
  simp [parseFloat, parseUnsigned, splitDot, digitsToNat]

theorem parseFloat_seven : parseFloat ("7") = some 7 := by
  simp [parseFloat, parseUnsigned, splitDot, digitsToNat]

theorem parseFloat_ten : parseFloat ("10") = some 10 := by
  simp [parseFloat, parseUnsigned, splitDot, digitsToNat]

theorem parseFloat_hundred : parseFloat ("100") = some 100 := by
  simp [parseFloat, parseUnsigned, splitDot, digitsToNat]

theorem parseFloat_neg_five : parseFloat ("-5") = some (-5) := by
  simp [parseFloat, parseUnsigned, splitDot, digitsToNat]

theorem parseFloat_ten_point : parseFloat ("10.456") = some (10456 / 1000) := by
  simp [parseFloat, parseUnsigned, splitDot, digitsToNat]
  norm_num

/-! ### Shape lemmas for the operations -/

theorem oldValueOf_of_parse {o : String} {v : Rat} (h : parseFloat o = some v) :
    oldValueOf (some o) = v := by
  have h1 : o ≠ STATE_UNKNOWN := by
    intro he; rw [he, parseFloat_unknown] at h; cases h
  have h2 : o ≠ STATE_UNAVAILABLE := by
    intro he; rw [he, parseFloat_unavailable] at h; cases h
  simp only [oldValueOf]
  rw [if_neg (by tauto), h]
  rfl

theorem sourceChanged_absent (oS : Option String) (t : Int) (s : DLIState) :
    sourceChanged none oS t s = (s, []) := rfl

theorem sourceChanged_noparse {nraw : String} (h : parseFloat nraw = none)
    (oS : Option String) (t : Int) (s : DLIState) :
    sourceChanged (some nraw) oS t s = (s, []) := by
  simp only [sourceChanged]
  rw [h]

theorem sourceChanged_nonpos {nraw : String} {nv : Rat} (h : parseFloat nraw = some nv)
    (oS : Option String) (t : Int) (s : DLIState)
    (hle : nv - oldValueOf oS ≤ 0) :
    sourceChanged (some nraw) oS t s = (s, []) := by
  simp only [sourceChanged]
  rw [h]
  simp only [if_neg (not_lt.mpr hle)]

theorem sourceChanged_pos {nraw : String} {nv : Rat} (h : parseFloat nraw = some nv)
    (oS : Option String) (t : Int) (s : DLIState)
    (hpos : 0 < nv - oldValueOf oS) :
    sourceChanged (some nraw) oS t s =
      (⟨s.window ++ [⟨t, nv - oldValueOf oS⟩],
        computeValue (s.window ++ [⟨t, nv - oldValueOf oS⟩])⟩,
       [computeValue (s.window ++ [⟨t, nv - oldValueOf oS⟩])]) := by
  simp only [sourceChanged]
  rw [h]
  simp only [if_pos hpos, updateValue]

theorem updateSlidingWindow_empty (now : Int) {s : DLIState} (h : s.window = []) :
    updateSlidingWindow now s = (s, []) := by
  unfold updateSlidingWindow
  rw [if_pos (by simp [h])]

theorem updateSlidingWindow_nonempty (now : Int) {s : DLIState} (h : s.window ≠ []) :
    updateSlidingWindow now s =
      (⟨s.window.filter (fun dp => cutoff now ≤ dp.ts),
        computeValue (s.window.filter (fun dp => cutoff now ≤ dp.ts))⟩,
       [computeValue (s.window.filter (fun dp => cutoff now ≤ dp.ts))]) := by
  unfold updateSlidingWindow
  rw [if_neg (by simp [h]), updateValue]

theorem updateSlidingWindow_window (now : Int) (s : DLIState) :
    (updateSlidingWindow now s).fst.window
      = s.window.filter (fun dp => cutoff now ≤ dp.ts) := by
  by_cases h : s.window = []
  · rw [updateSlidingWindow_empty now h, h]
    rfl
  · rw [updateSlidingWindow_nonempty now h]

theorem restoreState_window (p : Option String) (s : DLIState) :
    (restoreState p s).window = s.window := by
  cases p with
  | none => rfl
  | some str =>
    simp only [restoreState]
    by_cases hs : str = STATE_UNKNOWN ∨ str = STATE_UNAVAILABLE
    · rw [if_pos hs]
    · rw [if_neg hs]
      cases parseFloat str <;> rfl

theorem coldStart_of_parse {p : String} {v : Rat} (h : parseFloat p = some v) :
    coldStart (some p) = ⟨[], v⟩ := by
  have h1 : p ≠ STATE_UNKNOWN := by
    intro he; rw [he, parseFloat_unknown] at h; cases h
  have h2 : p ≠ STATE_UNAVAILABLE := by
    intro he; rw [he, parseFloat_unavailable] at h; cases h
  simp only [coldStart, restoreState, initState]
  rw [if_neg (by tauto), h]

/-! ### Arithmetic lemmas -/

theorem sumIncrements_nil : sumIncrements [] = 0 := rfl

theorem sumIncrements_append (w : List DataPoint) (dp : DataPoint) :
    sumIncrements (w ++ [dp]) = sumIncrements w + dp.increment := by
  simp [sumIncrements]

theorem roundHalfEven_sub_abs_le (q : Rat) : |(roundHalfEven q : Rat) - q| ≤ 1 / 2 := by
  have h1 : ((⌊q⌋ : Int) : Rat) ≤ q := Int.floor_le q
  have h2 : q < (⌊q⌋ : Rat) + 1 := Int.lt_floor_add_one q
  unfold roundHalfEven
  split_ifs with ha hb hc
  · rw [abs_le]; constructor <;> linarith
  · rw [abs_le]; push_cast; constructor <;> linarith
  · rw [abs_le]; constructor <;> linarith
  · rw [abs_le]; push_cast; constructor <;> linarith

theorem roundTo2_sub_abs_le (q : Rat) : |roundTo2 q - q| ≤ 1 / 200 := by
  have h := roundHalfEven_sub_abs_le (q * 100)
  unfold roundTo2
  have he : (roundHalfEven (q * 100) : Rat) / 100 - q
      = ((roundHalfEven (q * 100) : Rat) - q * 100) / 100 := by ring
  rw [he, abs_div, abs_of_pos (by norm_num : (0 : Rat) < 100)]
  linarith

theorem filter_self_idem {α : Type} (p : α → Bool) (l : List α) :
    (l.filter p).filter p = l.filter p := by
  induction l with
  | nil => rfl
  | cons a l ih =>
    by_cases h : p a
    · simp [List.filter_cons, h, ih]
    · simp [List.filter_cons, h, ih]

/-! ### Claim theorems -/

/-- Claim C2: for every window and sweep time `now`, `_update_sliding_window`
removes exactly the data points with timestamp older than `now - 24h` and
keeps all others; points exactly at the boundary `now - 24h` are always
kept (the filter keeps `dp[0] >= cutoff`), which is the one fixed boundary
choice applied to every point. -/
theorem sweep_evicts_exactly_older (now : Int) (s : DLIState) :
    (updateSlidingWindow now s).fst.window
      = s.window.filter (fun dp => cutoff now ≤ dp.ts)
    ∧ ∀ dp : DataPoint,
        (dp ∈ (updateSlidingWindow now s).fst.window
          ↔ dp ∈ s.window ∧ ¬ dp.ts < now - 86400) := by
  refine ⟨updateSlidingWindow_window now s, fun dp => ?_⟩
  rw [updateSlidingWindow_window now s, List.mem_filter]
  simp [cutoff, not_lt]

/-- Claim C3 counterexample: a sweep on an empty window publishes nothing
at all (`_update_sliding_window` returns early before `_update_value`),
and the value is left at its restored value 7 rather than being published
as 0.  The state is reachable: it is a cold start with persisted "7". -/
theorem sweep_empty_window_publishes_nothing :
    Reachable (coldStart (some ("7")))
    ∧ (coldStart (some ("7"))).window = []
    ∧ (coldStart (some ("7"))).value = 7
    ∧ updateSlidingWindow 0 (coldStart (some ("7"))) = (coldStart (some ("7")), []) := by
  have h := coldStart_of_parse parseFloat_seven
  refine ⟨Reachable.start _, by rw [h], by rw [h], ?_⟩
  exact updateSlidingWindow_empty 0 (by rw [h])

/-- Claim C3 amended: a sweep publishes the recomputed value exactly when
the window it starts from is nonempty (and then publishes it exactly once,
even if unchanged); when the window is empty the sweep returns early,
publishes nothing and leaves the whole state — including a stale
value — untouched. -/
theorem sweep_publishes_iff_window_nonempty (now : Int) (s : DLIState) :
    (updateSlidingWindow now s).snd
      = (if s.window.isEmpty then [] else [(updateSlidingWindow now s).fst.value])
    ∧ (updateSlidingWindow now s).fst
      = (if s.window.isEmpty then s
         else ⟨s.window.filter (fun dp => cutoff now ≤ dp.ts),
               computeValue (s.window.filter (fun dp => cutoff now ≤ dp.ts))⟩) := by
  by_cases h : s.window = []
  · rw [updateSlidingWindow_empty now h]
    simp [h]
  · rw [updateSlidingWindow_nonempty now h]
    simp [h]

/-- Claim C5: a source event whose new raw state is absent, a sentinel
("unknown"/"unavailable") or unparseable leaves the whole state unchanged,
appends no data point and publishes nothing; the embedding is a total
function, so no exception escapes (`float`'s `ValueError` is the caught
branch modelled by `parseFloat = none`). -/
theorem sourceChanged_invalid_new_no_change (s : DLIState) (oS : Option String) (t : Int) :
    sourceChanged none oS t s = (s, [])
    ∧ parseFloat STATE_UNKNOWN = none
    ∧ parseFloat STATE_UNAVAILABLE = none
    ∧ ∀ nraw : String, parseFloat nraw = none → sourceChanged (some nraw) oS t s = (s, []) :=
  ⟨sourceChanged_absent oS t s, parseFloat_unknown, parseFloat_unavailable,
    fun _ h => sourceChanged_noparse h oS t s⟩

/-- Claim C5 witness: concrete invalid events (absent new state, the
"unknown" sentinel, and a non-numeric string) leave a concrete state
unchanged. -/
theorem sourceChanged_invalid_new_no_change_witness :
    sourceChanged none (some ("5")) 0 ⟨[], 0⟩ = (⟨[], 0⟩, [])
    ∧ sourceChanged (some ("unknown")) (some ("5")) 0 ⟨[], 0⟩ = (⟨[], 0⟩, [])
    ∧ sourceChanged (some ("not_a_number")) (some ("5")) 0 ⟨[], 0⟩ = (⟨[], 0⟩, []) :=
  ⟨(sourceChanged_invalid_new_no_change ⟨[], 0⟩ (some ("5")) 0).1,
   (sourceChanged_invalid_new_no_change ⟨[], 0⟩ (some ("5")) 0).2.2.2
     ("unknown") parseFloat_unknown,
   (sourceChanged_invalid_new_no_change ⟨[], 0⟩ (some ("5")) 0).2.2.2
     ("not_a_number") parseFloat_not_a_number⟩

/-- Claim C6: when both raw states parse and the new value is at most the
old one (so the increment is `<= 0`), `_source_changed` appends no data
point, changes nothing and publishes nothing. -/
theorem sourceChanged_nonincreasing_no_change (s : DLIState) (nraw oraw : String)
    (t : Int) (nv ov : Rat) (hn : parseFloat nraw = some nv)
    (ho : parseFloat oraw = some ov) (hle : nv ≤ ov) :
    sourceChanged (some nraw) (some oraw) t s = (s, []) := by
  apply sourceChanged_nonpos hn
  rw [oldValueOf_of_parse ho]
  linarith

/-- Claim C6 witness: the decreasing transition old=10, new=5 is a no-op
on a concrete state. -/
theorem sourceChanged_nonincreasing_no_change_witness :
    sourceChanged (some ("5")) (some ("10")) 0 ⟨[⟨0, 1⟩], 1⟩ = (⟨[⟨0, 1⟩], 1⟩, []) :=
  sourceChanged_nonincreasing_no_change ⟨[⟨0, 1⟩], 1⟩ ("5") ("10") 0 5 10
    parseFloat_five parseFloat_ten (by norm_num)

/-- Claim C10: the sweep is idempotent on the accumulator state: sweeping
twice at the same time yields the same window and value as sweeping once.
(The second sweep either returns early on an emptied window or re-filters
a list the first filter already reduced.) -/
theorem sweep_idempotent (now : Int) (s : DLIState) :
    (updateSlidingWindow now (updateSlidingWindow now s).fst).fst
      = (updateSlidingWindow now s).fst := by
  by_cases h : s.window = []
  · rw [updateSlidingWindow_empty now h, updateSlidingWindow_empty now h]
  · rw [updateSlidingWindow_nonempty now h]
    by_cases h2 : s.window.filter (fun dp => cutoff now ≤ dp.ts) = []
    · rw [updateSlidingWindow_empty now h2]
    · rw [updateSlidingWindow_nonempty now h2]
      simp [filter_self_idem]

theorem sourceChanged_window_cases (n o : Option String) (t : Int) (s : DLIState) :
    (sourceChanged n o t s).fst.window = s.window
    ∨ ∃ inc : Rat, 0 < inc
        ∧ (sourceChanged n o t s).fst.window = s.window ++ [⟨t, inc⟩] := by
  cases n with
  | none => exact Or.inl rfl
  | some nraw =>
    cases hp : parseFloat nraw with
    | none =>
      left
      rw [sourceChanged_noparse hp]
    | some nv =>
      by_cases hpos : 0 < nv - oldValueOf o
      · right
        exact ⟨nv - oldValueOf o, hpos, by rw [sourceChanged_pos hp o t s hpos]⟩
      · left
        rw [sourceChanged_nonpos hp o t s (le_of_not_lt hpos)]

/-- Claim C8: in every reachable state, every data point in the window has
a strictly positive increment: the window starts empty, `_source_changed`
appends only increments `> 0`, the sweep only removes points, and the
restore step never touches the window. -/
theorem window_increments_positive :
    ∀ s : DLIState, Reachable s → ∀ dp : DataPoint, dp ∈ s.window → 0 < dp.increment := by
  intro s hs
  induction hs with
  | start p =>
    intro dp hdp
    rw [show coldStart p = restoreState p initState from rfl, restoreState_window] at hdp
    simp [initState] at hdp
  | source n o t hr ih =>
    intro dp hdp
    rcases sourceChanged_window_cases n o t _ with hc | ⟨inc, hpos, hc⟩
    · rw [hc] at hdp
      exact ih dp hdp
    · rw [hc] at hdp
      rcases List.mem_append.mp hdp with hin | hin
      · exact ih dp hin
      · rw [List.mem_singleton] at hin
        rw [hin]
        exact hpos
  | sweep now hr ih =>
    intro dp hdp
    rw [updateSlidingWindow_window] at hdp
    exact ih dp (List.mem_filter.mp hdp).1

/-- Claim C8 witness: the reachable state obtained from a cold start with
no persisted value and the accepted transition old=2, new=5 holds the data
point `(0, 3)`, whose increment is positive. -/
theorem window_increments_positive_witness :
    0 < (⟨0, 3⟩ : DataPoint).increment := by
  have hpos : 0 < (5 : Rat) - oldValueOf (some ("2")) := by
    rw [oldValueOf_of_parse parseFloat_two]
    norm_num
  have hmem : (⟨0, 3⟩ : DataPoint)
      ∈ (sourceChanged (some ("5")) (some ("2")) 0 (coldStart none)).fst.window := by
    rw [sourceChanged_pos parseFloat_five (some ("2")) 0 (coldStart none) hpos]
    simp [coldStart, restoreState, initState, oldValueOf_of_parse parseFloat_two]
    norm_num
  exact window_increments_positive _
    (Reachable.source (some ("5")) (some ("2")) 0 (Reachable.start none)) ⟨0, 3⟩ hmem

/-- Claim C9: from a state with an empty window and an arbitrary restored
value `v`, the first accepted positive increment sets the published value
to the rounded increment alone — the phantom `v` is replaced outright, not
added to (it appears nowhere in the result). -/
theorem first_increment_replaces_restored_value (v : Rat) (nraw : String)
    (oS : Option String) (t : Int) (nv : Rat) (hn : parseFloat nraw = some nv)
    (hpos : 0 < nv - oldValueOf oS) :
    (sourceChanged (some nraw) oS t ⟨[], v⟩).fst.value
      = roundTo2 (nv - oldValueOf oS) := by
  rw [sourceChanged_pos hn oS t ⟨[], v⟩ hpos]
  show computeValue ([] ++ [⟨t, nv - oldValueOf oS⟩]) = _
  simp [computeValue, sumIncrements]

/-- Claim C9 witness: with restored value 100 and empty window, the first
increment 5 publishes 5, not 105. -/
theorem first_increment_replaces_restored_value_witness :
    (sourceChanged (some ("5")) none 0 ⟨[], 100⟩).fst.value = 5 := by
  have h := first_increment_replaces_restored_value 100 ("5") none 0 5 parseFloat_five
    (by norm_num [oldValueOf])
  rw [h]
  norm_num [oldValueOf, roundTo2, roundHalfEven]

/-- Claim C4 counterexample: the persisted scalar "-5" exists, parses as a
real, but is negative — the claim then requires AccumulatedValue to be
initialized to 0, yet `async_added_to_hass` runs `float("-5")` with no
sign check and restores -5. -/
theorem negative_restored_value_kept :
    parseFloat ("-5") = some (-5)
    ∧ (coldStart (some ("-5"))).value = -5
    ∧ ¬ (0 ≤ (coldStart (some ("-5"))).value)
    ∧ (coldStart (some ("-5"))).value ≠ 0 := by
  have h := coldStart_of_parse parseFloat_neg_five
  exact ⟨parseFloat_neg_five, by rw [h], by rw [h]; norm_num, by rw [h]; norm_num⟩

/-- Claim C4 amended: on cold start, if a persisted scalar exists, is not
a sentinel and parses as a real — of any sign, negative included —
AccumulatedValue is initialized to it; otherwise (absent, sentinel, or
unparseable) to 0.  The window is empty after initialization regardless,
and `currentValue()` immediately after init equals the restored value. -/
theorem coldStart_characterization (p : Option String) :
    (coldStart p).window = []
    ∧ currentValue (coldStart p)
        = (match p with
           | none => 0
           | some str =>
             if str = STATE_UNKNOWN ∨ str = STATE_UNAVAILABLE then 0
             else (parseFloat str).getD 0) := by
  constructor
  · rw [show coldStart p = restoreState p initState from rfl, restoreState_window]
    rfl
  · cases p with
    | none => rfl
    | some str =>
      simp only [currentValue, coldStart, restoreState, initState]
      by_cases hs : str = STATE_UNKNOWN ∨ str = STATE_UNAVAILABLE
      · rw [if_pos hs, if_pos hs]
      · rw [if_neg hs, if_neg hs]
        cases parseFloat str <;> rfl

/-- Claim C1 counterexample: in the reachable state restored from the
persisted scalar "100" (empty window, value 100), the valid increasing
pair old=0, new=5 appends one data point but publishes 5, which is not
within rounding distance of 100 + 5: the published value does not
"increase by the increment". -/
theorem restored_value_breaks_delta_increase :
    Reachable (coldStart (some ("100")))
    ∧ parseFloat ("5") = some 5 ∧ parseFloat ("0") = some 0 ∧ ((0 : Rat) < 5 - 0)
    ∧ (coldStart (some ("100"))).value = 100
    ∧ (sourceChanged (some ("5")) (some ("0")) 0 (coldStart (some ("100")))).fst.value = 5
    ∧ ¬ |(sourceChanged (some ("5")) (some ("0")) 0 (coldStart (some ("100")))).fst.value
          - ((coldStart (some ("100"))).value + (5 - 0))| ≤ 1 / 100 := by
  have hc := coldStart_of_parse parseFloat_hundred
  have hpos : 0 < (5 : Rat) - oldValueOf (some ("0")) := by
    rw [oldValueOf_of_parse parseFloat_zero]
    norm_num
  have hv : (sourceChanged (some ("5")) (some ("0")) 0 (coldStart (some ("100")))).fst.value
      = 5 := by
    rw [hc, sourceChanged_pos parseFloat_five (some ("0")) 0 ⟨[], 100⟩ hpos]
    show computeValue ([] ++ [⟨0, 5 - oldValueOf (some ("0"))⟩]) = 5
    rw [oldValueOf_of_parse parseFloat_zero]
    norm_num [computeValue, sumIncrements, roundTo2, roundHalfEven]
  refine ⟨Reachable.start _, parseFloat_five, parseFloat_zero, by norm_num,
    by rw [hc], hv, ?_⟩
  rw [hv, hc, not_le]
  have he : (5 : Rat) - ((⟨[], (100 : Rat)⟩ : DLIState).value + (5 - 0)) = -100 := by
    norm_num
  rw [he, abs_neg, abs_of_nonneg (by norm_num : (0 : Rat) ≤ 100)]
  norm_num

/-- Claim C1 amended: for a valid increasing pair parsed from the event,
`_source_changed` appends exactly one data point with increment
`new - old` and publishes exactly once — and provided the pre-state value
is in sync with its window (true everywhere except in the transient state
right after restoring a nonzero persisted scalar onto an empty window),
the published value increases by the increment up to rounding at 2
decimals (within 1/100). -/
theorem sourceChanged_appends_and_increases (s : DLIState) (nraw oraw : String)
    (t : Int) (nv ov : Rat) (hn : parseFloat nraw = some nv)
    (ho : parseFloat oraw = some ov) (hlt : ov < nv)
    (hsync : s.value = computeValue s.window) :
    (sourceChanged (some nraw) (some oraw) t s).fst.window
      = s.window ++ [⟨t, nv - ov⟩]
    ∧ (sourceChanged (some nraw) (some oraw) t s).snd
      = [(sourceChanged (some nraw) (some oraw) t s).fst.value]
    ∧ |(sourceChanged (some nraw) (some oraw) t s).fst.value - (s.value + (nv - ov))|
        ≤ 1 / 100 := by
  have hov := oldValueOf_of_parse ho
  have hpos : 0 < nv - oldValueOf (some oraw) := by
    rw [hov]
    linarith
  have hw' : (sourceChanged (some nraw) (some oraw) t s).fst.window
      = s.window ++ [⟨t, nv - ov⟩] := by
    rw [sourceChanged_pos hn (some oraw) t s hpos, hov]
  have hv' : (sourceChanged (some nraw) (some oraw) t s).fst.value
      = computeValue (s.window ++ [⟨t, nv - ov⟩]) := by
    rw [sourceChanged_pos hn (some oraw) t s hpos, hov]
  have hs' : (sourceChanged (some nraw) (some oraw) t s).snd
      = [(sourceChanged (some nraw) (some oraw) t s).fst.value] := by
    rw [sourceChanged_pos hn (some oraw) t s hpos]
  refine ⟨hw', hs', ?_⟩
  rw [hv', hsync]
  have hde : computeValue (s.window ++ [⟨t, nv - ov⟩])
      = roundTo2 (sumIncrements s.window + (nv - ov)) := by
    rw [computeValue, if_neg (by simp), sumIncrements_append]
  rw [hde, computeValue]
  by_cases hw : s.window.isEmpty
  · rw [if_pos hw]
    have hnil : s.window = [] := by simpa using hw
    rw [hnil, sumIncrements_nil]
    have hb := roundTo2_sub_abs_le (0 + (nv - ov))
    rw [zero_add] at hb ⊢
    linarith [hb, abs_nonneg (roundTo2 (nv - ov) - (nv - ov))]
  · rw [if_neg hw]
    have hA := roundTo2_sub_abs_le (sumIncrements s.window + (nv - ov))
    have hB := roundTo2_sub_abs_le (sumIncrements s.window)
    have hsplit : roundTo2 (sumIncrements s.window + (nv - ov))
        - (roundTo2 (sumIncrements s.window) + (nv - ov))
        = (roundTo2 (sumIncrements s.window + (nv - ov))
            - (sumIncrements s.window + (nv - ov)))
          - (roundTo2 (sumIncrements s.window) - sumIncrements s.window) := by
      ring
    rw [hsplit]
    have htri : |(roundTo2 (sumIncrements s.window + (nv - ov))
            - (sumIncrements s.window + (nv - ov)))
          - (roundTo2 (sumIncrements s.window) - sumIncrements s.window)|
        ≤ |roundTo2 (sumIncrements s.window + (nv - ov))
            - (sumIncrements s.window + (nv - ov))|
          + |roundTo2 (sumIncrements s.window) - sumIncrements s.window| := by
      rw [sub_eq_add_neg]
      refine (abs_add _ _).trans ?_
      rw [abs_neg]
    linarith

/-- Claim C1 amended, witness: the increasing pair old=2, new=5 applied to
the in-sync initial state. -/
theorem sourceChanged_appends_and_increases_witness :
    (sourceChanged (some ("5")) (some ("2")) 0 initState).fst.window
      = initState.window ++ [⟨0, 5 - 2⟩]
    ∧ (sourceChanged (some ("5")) (some ("2")) 0 initState).snd
      = [(sourceChanged (some ("5")) (some ("2")) 0 initState).fst.value]
    ∧ |(sourceChanged (some ("5")) (some ("2")) 0 initState).fst.value
        - (initState.value + (5 - 2))| ≤ 1 / 100 :=
  sourceChanged_appends_and_increases initState ("5") ("2") 0 5 2
    parseFloat_five parseFloat_two (by norm_num) (by simp [initState, computeValue])

/-- Claim C7 counterexample: the reachable state restored from the
persisted scalar "7" has an empty window but value 7, so AccumulatedValue
does not equal the rounded window sum at all times. -/
theorem restored_value_out_of_sync :
    Reachable (coldStart (some ("7")))
    ∧ (coldStart (some ("7"))).value ≠ computeValue (coldStart (some ("7"))).window := by
  have h := coldStart_of_parse parseFloat_seven
  refine ⟨Reachable.start _, ?_⟩
  rw [h]
  norm_num [computeValue]

/-- Claim C7 amended: `AccumulatedValue = round(sum of window increments, 2)`
holds in the initial state and is preserved by both operations, so it
holds at all times except in the transient state right after restoring a
nonzero persisted scalar (until the first recompute); and a window holding
the increments 5.123 and 10.456 yields the published value 15.58. -/
theorem value_tracks_window_after_recompute :
    InSync initState
    ∧ (∀ s : DLIState, InSync s → ∀ n o : Option String, ∀ t : Int,
        InSync (sourceChanged n o t s).fst)
    ∧ (∀ s : DLIState, InSync s → ∀ now : Int, InSync (updateSlidingWindow now s).fst)
    ∧ computeValue [⟨0, 5.123⟩, ⟨1, 10.456⟩] = 15.58 := by
  refine ⟨by simp [InSync, initState, computeValue], ?_, ?_, ?_⟩
  · intro s hs n o t
    cases n with
    | none => exact hs
    | some nraw =>
      cases hp : parseFloat nraw with
      | none =>
        rw [sourceChanged_noparse hp]
        exact hs
      | some nv =>
        by_cases hpos : 0 < nv - oldValueOf o
        · rw [sourceChanged_pos hp o t s hpos]
          exact rfl
        · rw [sourceChanged_nonpos hp o t s (le_of_not_lt hpos)]
          exact hs
  · intro s hs now
    by_cases h : s.window = []
    · rw [updateSlidingWindow_empty now h]
      exact hs
    · rw [updateSlidingWindow_nonempty now h]
      exact rfl
  · norm_num [computeValue, sumIncrements, roundTo2, roundHalfEven]

/-- Claim C7 amended, witness: both preservation conjuncts applied to the
concrete in-sync initial state. -/
theorem value_tracks_window_after_recompute_witness :
    InSync (updateSlidingWindow 5 initState).fst
    ∧ InSync (sourceChanged (some ("7")) none 3 initState).fst :=
  ⟨(value_tracks_window_after_recompute).2.2.1 initState
     (by simp [InSync, initState, computeValue]) 5,
   (value_tracks_window_after_recompute).2.1 initState
     (by simp [InSync, initState, computeValue]) (some ("7")) none 3⟩

end PlantDLI
